import Mathlib

/-!
Verification of the signal-matching engine of `hubspot-signal-matcher`.

The definitions below are a shallow embedding of `src/lib/matcher.py`
(class `SignalMatcher`) together with the audit logger
`SupabaseClient.log_match` (`src/lib/supabase_client.py`).  External
collaborators (the OpenAI extraction call, the Supabase table query, the
HubSpot CRM reads/writes, the Slack webhook) are modelled as oracle
functions collected in an `Env` record; similarity scores and the
confidence threshold are embedded as rationals (Python compares the float
literals 1.0 / 0.9 / 0.8, on which comparison is exact).
-/

namespace SignalMatcher

/-- Characterwise lowercase, modelling Python `str.lower()`
(ASCII letters are all that appear in the constants compared against). -/
def lowerStr (s : String) : String :=
  ⟨s.data.map Char.toLower⟩

/-- Strip leading and trailing whitespace, modelling Python `str.strip()`. -/
def trimStr (s : String) : String :=
  ⟨((s.data.dropWhile Char.isWhitespace).reverse.dropWhile Char.isWhitespace).reverse⟩

/-- Truth of `lpre needle hay`: true when `needle` is an initial segment of `hay`. -/
def lpre : List Char → List Char → Bool
  | [], _ => true
  | _ :: _, [] => false
  | a :: as, b :: bs => a == b && lpre as bs

/-- Truth of `lsub needle hay`: true when `needle` occurs contiguously in `hay`:
Python's `needle in hay` on strings (the empty string occurs in anything). -/
def lsub (needle : List Char) : List Char → Bool
  | [] => lpre needle []
  | c :: t => lpre needle (c :: t) || lsub needle t

/-- Python `a in b` for strings. -/
def strIn (needle hay : String) : Bool :=
  lsub needle.data hay.data

/-- Replace every occurrence of the character `c` in `s` by the character
list `r`; the building block for the query sanitisation in
`search_company_by_name` (all three Python `str.replace` calls there have
single-character patterns). -/
def replaceChar (s : String) (c : Char) (r : List Char) : String :=
  ⟨s.data.flatMap (fun x => if x = c then r else [x])⟩

/-- matcher.py line 121: `company_name.replace(",", "").replace(".", "").replace("'", "''")`. -/
def sanitize (company_name : String) : String :=
  replaceChar (replaceChar (replaceChar company_name ',' []) '.' [])
    (Char.ofNat 39) [Char.ofNat 39, Char.ofNat 39]

/-- The `MatchResult` dataclass (matcher.py lines 30-39). -/
structure MatchResult where
  hubspot_id : String
  name : String
  match_type : String
  similarity : ℚ
  association_created : Bool := false
  stage : String := ""
  owner_id : String := ""
  shared_user_ids : List String := []
deriving DecidableEq, Repr

/-- The class constant `STAGE_PRIORITY` (matcher.py line 43), as the total
lookup `dict.get(stage, 0)` used by `select_best_match`. -/
def STAGE_PRIORITY (stage : String) : Nat :=
  if stage = "Customer" then 3
  else if stage = "Prospect" then 2
  else if stage = "Agency" then 1
  else 0

/-- The class constant `CUSTOMER_STAGES` (matcher.py line 44). -/
def CUSTOMER_STAGES : List String := ["customer", "1105763437"]

/-- The company attribute map consumed by `determine_company_stage` and
`get_assignment_for_stage`; every access in the source is
`company_details.get(key, "")`, so absent keys are the empty string. -/
structure CompanyDetails where
  lifecyclestage : String := ""
  company_type : String := ""
  ae_owner : String := ""
  sdr_owner : String := ""
  brand_champ : String := ""
  hubspot_owner_id : String := ""
deriving DecidableEq, Repr

/-- Method `determine_company_stage` (matcher.py lines 55-62). -/
def determine_company_stage (company_details : CompanyDetails) : String :=
  let lifecyclestage := lowerStr company_details.lifecyclestage
  let company_type := lowerStr company_details.company_type
  if company_type = "agency" then "Agency"
  else if lifecyclestage ∈ CUSTOMER_STAGES then "Customer"
  else "Prospect"

/-- Method `get_assignment_for_stage` (matcher.py lines 64-79).
Python `a or b` on strings is `if a ≠ "" then a else b`; the Python list
comprehension filter `uid and uid != owner_id` keeps non-empty
identifiers different from the chosen owner. -/
def get_assignment_for_stage (stage : String) (company_details : CompanyDetails) :
    String × List String :=
  let ae_owner := company_details.ae_owner
  let sdr_owner := company_details.sdr_owner
  let brand_champ := company_details.brand_champ
  let company_owner := company_details.hubspot_owner_id
  if stage = "Prospect" then
    let owner_id := if ae_owner ≠ "" then ae_owner else company_owner
    (owner_id, [sdr_owner, company_owner].filter (fun uid => uid ≠ "" ∧ uid ≠ owner_id))
  else if stage = "Customer" then
    let owner_id := if brand_champ ≠ "" then brand_champ else company_owner
    (owner_id, if company_owner ≠ "" ∧ company_owner ≠ owner_id then [company_owner] else [])
  else
    (company_owner, [])

/-- The sort key of `select_best_match` (matcher.py lines 86-87). -/
def sort_key (m : MatchResult) : ℚ × Nat :=
  (m.similarity, STAGE_PRIORITY m.stage)

/-- Lexicographic `≤` on sort keys, as Python compares the tuples. -/
def keyLe (x y : ℚ × Nat) : Prop :=
  x.1 < y.1 ∨ (x.1 = y.1 ∧ x.2 ≤ y.2)

/-- Lexicographic `<` on sort keys. -/
def keyLt (x y : ℚ × Nat) : Prop :=
  x.1 < y.1 ∨ (x.1 = y.1 ∧ x.2 < y.2)

instance : DecidableRel keyLe := fun x y =>
  inferInstanceAs (Decidable (x.1 < y.1 ∨ (x.1 = y.1 ∧ x.2 ≤ y.2)))

instance : DecidableRel keyLt := fun x y =>
  inferInstanceAs (Decidable (x.1 < y.1 ∨ (x.1 = y.1 ∧ x.2 < y.2)))

/-- The ordering under which Python's stable `sorted(..., reverse=True)`
arranges the matches: `a` may precede `b` iff `a`'s key is at least `b`'s. -/
def bmRel (a b : MatchResult) : Prop :=
  keyLe (sort_key b) (sort_key a)

instance : DecidableRel bmRel := fun a b =>
  inferInstanceAs (Decidable (keyLe (sort_key b) (sort_key a)))

/-- Method `select_best_match` (matcher.py lines 81-88).  Python's
`sorted(matches, key=sort_key, reverse=True)` is the stable descending
sort by `sort_key`, embedded here as an insertion sort under `bmRel`
(stable sorting under a total preorder has a unique result, so any stable
sort gives the list Python computes); the code then takes element `[0]`. -/
def select_best_match (ms : List MatchResult) : Option MatchResult :=
  match ms with
  | [] => none
  | [m] => some m
  | l => (List.insertionSort bmRel l).head?

/-- Specification-side selector: the first element of the list attaining
the maximal `(similarity, stage priority)` key ("stable sort,
first-discovered wins" in the spec's words). -/
def firstMaxBySpec : List MatchResult → Option MatchResult
  | [] => none
  | m :: ms =>
    match firstMaxBySpec ms with
    | none => some m
    | some b => if keyLt (sort_key m) (sort_key b) then some b else some m

theorem keyLe_iff_not_keyLt (x y : ℚ × Nat) : keyLe x y ↔ ¬ keyLt y x := by
  unfold keyLe keyLt
  constructor
  · rintro (h | ⟨he, h2⟩) (h' | ⟨he', h2'⟩)
    · exact absurd h' (lt_asymm h)
    · rw [he'] at h
      exact lt_irrefl _ h
    · rw [he] at h'
      exact lt_irrefl _ h'
    · omega
  · intro h
    rcases lt_trichotomy x.1 y.1 with h1 | h1 | h1
    · exact Or.inl h1
    · refine Or.inr ⟨h1, ?_⟩
      by_contra hn
      exact h (Or.inr ⟨h1.symm, by omega⟩)
    · exact absurd (Or.inl h1) h

theorem head?_orderedInsert (a : MatchResult) (l : List MatchResult) :
    (List.orderedInsert bmRel a l).head? =
      some (match l.head? with
            | none => a
            | some b => if bmRel a b then a else b) := by
  cases l with
  | nil => rfl
  | cons b t =>
    by_cases h : bmRel a b <;> simp [List.orderedInsert, h]

theorem head?_insertionSort (ms : List MatchResult) :
    (List.insertionSort bmRel ms).head? = firstMaxBySpec ms := by
  induction ms with
  | nil => rfl
  | cons a t ih =>
    have h1 : List.insertionSort bmRel (a :: t) =
        List.orderedInsert bmRel a (List.insertionSort bmRel t) := rfl
    rw [h1, head?_orderedInsert, ih]
    cases hb : firstMaxBySpec t with
    | none => simp [firstMaxBySpec, hb]
    | some b =>
      by_cases hlt : keyLt (sort_key a) (sort_key b)
      · have hnb : ¬ bmRel a b := by
          unfold bmRel
          rw [keyLe_iff_not_keyLt]
          exact not_not_intro hlt
        simp [firstMaxBySpec, hb, hnb, hlt]
      · have hab : bmRel a b := by
          unfold bmRel
          rw [keyLe_iff_not_keyLt]
          exact hlt
        simp [firstMaxBySpec, hb, hab, hlt]

theorem select_best_match_eq_firstMax (ms : List MatchResult) :
    select_best_match ms = firstMaxBySpec ms := by
  match ms with
  | [] => rfl
  | [m] => rfl
  | a :: b :: t =>
    rw [show select_best_match (a :: b :: t) =
          (List.insertionSort bmRel (a :: b :: t)).head? from rfl]
    exact head?_insertionSort (a :: b :: t)

/-- Example matches from the spec's determinism scenario. -/
def exProspect95 : MatchResult :=
  { hubspot_id := "1", name := "P", match_type := "company",
    similarity := mkRat 95 100, stage := "Prospect" }

/-- Second example match: score 0.95, stage Customer. -/
def exCustomer95 : MatchResult :=
  { hubspot_id := "2", name := "C", match_type := "company",
    similarity := mkRat 95 100, stage := "Customer" }

/-- Third example match: score 0.80, stage Customer. -/
def exCustomer80 : MatchResult :=
  { hubspot_id := "3", name := "C2", match_type := "company",
    similarity := mkRat 80 100, stage := "Customer" }

/-- C1: `select_best_match` returns `none` on `[]`, the sole element of a
singleton, and otherwise the first element of the input attaining the
maximal `(similarity, stage priority)` key with Customer=3, Prospect=2,
Agency=1, other=0 (so earlier-discovered candidates win ties); on the
spec's example `[(0.95, Prospect), (0.95, Customer), (0.80, Customer)]`
it returns the second element. -/
theorem select_best_match_spec :
    (∀ ms : List MatchResult, select_best_match ms = firstMaxBySpec ms) ∧
    select_best_match [] = none ∧
    (∀ m : MatchResult, select_best_match [m] = some m) ∧
    select_best_match [exProspect95, exCustomer95, exCustomer80] = some exCustomer95 := by
  refine ⟨select_best_match_eq_firstMax, rfl, fun m => rfl, by decide⟩

/-- A row of the Supabase `companies` table as selected by
`search_company_by_name` (`hubspot_id, name, domain`); a SQL NULL `name`
is modelled as `""` (the code maps both to an empty lowercase name). -/
structure DBRec where
  hubspot_id : String
  name : String
  domain : String
deriving DecidableEq, Repr

/-- A scored search result, one dict of the list built in
`search_company_by_name` (matcher.py line 136). -/
structure SearchHit where
  hubspot_id : String
  name : String
  domain : String
  similarity : ℚ
deriving DecidableEq, Repr

/-- Oracle environment standing for the external collaborators of the
matcher (spec §6): the Supabase table and its possible backend failures,
the OpenAI name extraction, the HubSpot CRM writes, the Slack webhook
presence, and the configured confidence threshold.

Modelled from the spec: the HubSpot client methods `get_company_details`,
`update_signal_owner`, `update_signal_shared_users` and `get_owner_name`
are called by `SignalMatcher.match_signal` but are not defined anywhere
under `src/`; per spec §6 (`fetchEntityDetails`, `setOwner`,
`setWatchers`, `resolveOwnerDisplayName`) they are independent remote
calls returning an attribute map, success booleans and a display name,
so they appear here as the oracle fields `details`, `ownerOk`,
`sharedOk` and `ownerName`. -/
structure Env where
  table : List DBRec
  dbFail : String → Bool
  extract : String → List String
  details : String → CompanyDetails
  linkOk : String → Bool
  ownerOk : String → Bool
  sharedOk : List String → Bool
  ownerName : String → String
  slackEnabled : Bool
  threshold : ℚ

/-- The Supabase query built in matcher.py lines 122-124:
`.or_(f"name.ilike.%{q}%,domain.ilike.%{q}%").limit(5)` — rows whose name
or domain contains the (sanitised) pattern case-insensitively, capped at
five rows. -/
def queryCompanies (table : List DBRec) (pat : String) : List DBRec :=
  (table.filter (fun r =>
    strIn (lowerStr pat) (lowerStr r.name) || strIn (lowerStr pat) (lowerStr r.domain))).take 5

/-- Method `search_company_by_name` (matcher.py lines 119-140).
The `try/except` that turns any backend error into `[]` is modelled by
the `dbFail` oracle; note the similarity is computed against the
original (unsanitised) query string, as in the source. -/
def search_company_by_name (env : Env) (company_name : String) : List SearchHit :=
  if env.dbFail company_name then []
  else
    let sanitized_name := sanitize company_name
    let records := queryCompanies env.table sanitized_name
    records.map (fun record =>
      let name_lower := lowerStr record.name
      let search_lower := lowerStr company_name
      let similarity : ℚ :=
        if name_lower = search_lower then mkRat 1 1
        else if strIn search_lower name_lower || strIn name_lower search_lower then mkRat 9 10
        else mkRat 4 5
      { hubspot_id := record.hubspot_id, name := record.name, domain := record.domain,
        similarity := similarity })

/-- Construction of one `MatchResult` from an admitted search result
(matcher.py lines 183-186): fetch company details, classify the stage,
derive the assignment. -/
def mkMatch (env : Env) (hit : SearchHit) : MatchResult :=
  let company_details := env.details hit.hubspot_id
  let stage := determine_company_stage company_details
  let assignment := get_assignment_for_stage stage company_details
  { hubspot_id := hit.hubspot_id, name := hit.name, match_type := "company",
    similarity := hit.similarity, stage := stage, owner_id := assignment.1,
    shared_user_ids := assignment.2 }

/-- One iteration of the admission loop of `match_signal` (matcher.py
lines 180-187): a search result is admitted iff its id is unseen and its
similarity reaches the threshold; the accumulator carries the admitted
matches and the `seen_ids` working set. -/
def admitStep (env : Env) (acc : List MatchResult × List String) (hit : SearchHit) :
    List MatchResult × List String :=
  if hit.hubspot_id ∉ acc.2 ∧ env.threshold ≤ hit.similarity then
    (acc.1 ++ [mkMatch env hit], acc.2 ++ [hit.hubspot_id])
  else acc

/-- The nested loops of matcher.py lines 175-187: for each extracted name,
for each of its search results, run the admission step. -/
def collectMatches (env : Env) (company_names : List String) : List MatchResult :=
  (company_names.foldl
    (fun acc company_name =>
      (search_company_by_name env company_name).foldl (admitStep env) acc)
    ([], [])).1

/-- Specification-side deduplicator: keep the first occurrence of every
entity identifier not in `seen`, working left to right. -/
def dedupFirst : List SearchHit → List String → List SearchHit
  | [], _ => []
  | h :: t, seen =>
    if h.hubspot_id ∈ seen then dedupFirst t seen
    else h :: dedupFirst t (seen ++ [h.hubspot_id])

theorem mkMatch_hubspot_id (env : Env) (hit : SearchHit) :
    (mkMatch env hit).hubspot_id = hit.hubspot_id := rfl

theorem mkMatch_similarity (env : Env) (hit : SearchHit) :
    (mkMatch env hit).similarity = hit.similarity := rfl

theorem mkMatch_flag (env : Env) (hit : SearchHit) :
    (mkMatch env hit).association_created = false := rfl

theorem admitFold_spec (env : Env) :
    ∀ (hits : List SearchHit) (ms : List MatchResult) (seen : List String),
      hits.foldl (admitStep env) (ms, seen) =
        (ms ++ (dedupFirst (hits.filter
            (fun h => decide (env.threshold ≤ h.similarity))) seen).map (mkMatch env),
         seen ++ (dedupFirst (hits.filter
            (fun h => decide (env.threshold ≤ h.similarity))) seen).map
              (fun h => h.hubspot_id)) := by
  intro hits
  induction hits with
  | nil => intro ms seen; simp [dedupFirst]
  | cons h t ih =>
    intro ms seen
    by_cases hthr : env.threshold ≤ h.similarity
    · by_cases hmem : h.hubspot_id ∈ seen
      · have hstep : admitStep env (ms, seen) h = (ms, seen) := by
          simp [admitStep, hmem]
        rw [List.foldl_cons, hstep, ih ms seen]
        simp [List.filter_cons, hthr, dedupFirst, hmem]
      · have hstep : admitStep env (ms, seen) h =
            (ms ++ [mkMatch env h], seen ++ [h.hubspot_id]) := by
          simp [admitStep, hmem, hthr]
        rw [List.foldl_cons, hstep, ih (ms ++ [mkMatch env h]) (seen ++ [h.hubspot_id])]
        simp [List.filter_cons, hthr, dedupFirst, hmem]
    · have hstep : admitStep env (ms, seen) h = (ms, seen) := by
        simp [admitStep, hthr]
      rw [List.foldl_cons, hstep, ih ms seen]
      simp [List.filter_cons, hthr]

theorem dedupFirst_sub :
    ∀ (hits : List SearchHit) (seen : List String) (h : SearchHit),
      h ∈ dedupFirst hits seen → h ∈ hits := by
  intro hits
  induction hits with
  | nil => intro seen h hmem; simp [dedupFirst] at hmem
  | cons a t ih =>
    intro seen h hmem
    by_cases ha : a.hubspot_id ∈ seen
    · simp only [dedupFirst, if_pos ha] at hmem
      exact List.mem_cons_of_mem a (ih seen h hmem)
    · simp only [dedupFirst, if_neg ha, List.mem_cons] at hmem
      rcases hmem with rfl | hmem
      · exact List.mem_cons_self _ _
      · exact List.mem_cons_of_mem a (ih _ h hmem)

theorem dedupFirst_nodup :
    ∀ (hits : List SearchHit) (seen : List String),
      ((dedupFirst hits seen).map (fun h => h.hubspot_id)).Nodup ∧
      (∀ i ∈ (dedupFirst hits seen).map (fun h => h.hubspot_id), i ∉ seen) := by
  intro hits
  induction hits with
  | nil => intro seen; simp [dedupFirst]
  | cons a t ih =>
    intro seen
    by_cases ha : a.hubspot_id ∈ seen
    · simpa [dedupFirst, if_pos ha] using ih seen
    · have iht := ih (seen ++ [a.hubspot_id])
      refine ⟨?_, ?_⟩
      · simp only [dedupFirst, if_neg ha, List.map_cons, List.nodup_cons]
        refine ⟨fun hx => ?_, iht.1⟩
        have := iht.2 _ hx
        simp at this
      · intro i hi
        simp only [dedupFirst, if_neg ha, List.map_cons, List.mem_cons] at hi
        rcases hi with rfl | hi
        · exact ha
        · have := iht.2 i hi
          intro hcon
          exact this (by simp [hcon])

theorem collect_foldl_flat (env : Env) :
    ∀ (company_names : List String) (acc : List MatchResult × List String),
      company_names.foldl
        (fun acc company_name =>
          (search_company_by_name env company_name).foldl (admitStep env) acc) acc =
      (company_names.flatMap (search_company_by_name env)).foldl (admitStep env) acc := by
  intro company_names
  induction company_names with
  | nil => intro acc; rfl
  | cons n t ih =>
    intro acc
    rw [List.foldl_cons, ih, List.flatMap_cons, List.foldl_append]

theorem collectMatches_eq_stream (env : Env) (company_names : List String) :
    collectMatches env company_names =
      (dedupFirst ((company_names.flatMap (search_company_by_name env)).filter
          (fun h => decide (env.threshold ≤ h.similarity))) []).map (mkMatch env) := by
  unfold collectMatches
  rw [collect_foldl_flat, admitFold_spec]
  simp

/-- C2: during one run a search result is admitted iff its id is unseen
and its similarity is at least the threshold (the candidate list is
exactly the first-occurrence deduplication of the threshold-filtered
stream of search results, in discovery order — so a later rediscovery of
an id, even with a higher score, is discarded); hence admitted ids are
pairwise distinct and every admitted candidate scores at least the
threshold. -/
theorem candidate_admission_spec (env : Env) (company_names : List String) :
    collectMatches env company_names =
      (dedupFirst ((company_names.flatMap (search_company_by_name env)).filter
          (fun h => decide (env.threshold ≤ h.similarity))) []).map (mkMatch env) ∧
    ((collectMatches env company_names).map (fun m => m.hubspot_id)).Nodup ∧
    (∀ m ∈ collectMatches env company_names, env.threshold ≤ m.similarity) := by
  refine ⟨collectMatches_eq_stream env company_names, ?_, ?_⟩
  · rw [collectMatches_eq_stream env company_names, List.map_map]
    have : ((fun m => MatchResult.hubspot_id m) ∘ mkMatch env) =
        (fun h => SearchHit.hubspot_id h) := rfl
    rw [this]
    exact (dedupFirst_nodup _ []).1
  · intro m hm
    rw [collectMatches_eq_stream env company_names] at hm
    rcases List.mem_map.1 hm with ⟨h, hh, rfl⟩
    have hfil := dedupFirst_sub _ _ _ hh
    have := List.of_mem_filter hfil
    rw [mkMatch_similarity]
    exact of_decide_eq_true this

/-- C4: `determine_company_stage` returns Agency whenever the type
attribute equals "agency" case-insensitively (regardless of the
lifecycle stage), otherwise Customer when the lowercased lifecycle stage
is in the configured customer value-set, otherwise Prospect; it is a
pure deterministic function of those two attributes only. -/
theorem determine_company_stage_spec (d : CompanyDetails) :
    (lowerStr d.company_type = "agency" → determine_company_stage d = "Agency") ∧
    (lowerStr d.company_type ≠ "agency" → lowerStr d.lifecyclestage ∈ CUSTOMER_STAGES →
      determine_company_stage d = "Customer") ∧
    (lowerStr d.company_type ≠ "agency" → lowerStr d.lifecyclestage ∉ CUSTOMER_STAGES →
      determine_company_stage d = "Prospect") ∧
    (∀ d' : CompanyDetails, d.company_type = d'.company_type →
      d.lifecyclestage = d'.lifecyclestage →
      determine_company_stage d = determine_company_stage d') := by
  refine ⟨?_, ?_, ?_, ?_⟩
  · intro h
    simp [determine_company_stage, h]
  · intro h hc
    simp [determine_company_stage, h, hc]
  · intro h hc
    simp [determine_company_stage, h, hc]
  · intro d' h1 h2
    unfold determine_company_stage
    rw [h1, h2]

theorem determine_company_stage_spec_witness :
    lowerStr (CompanyDetails.company_type
      { company_type := "Agency", lifecyclestage := "customer" }) = "agency" ∧
    determine_company_stage { company_type := "Agency", lifecyclestage := "customer" } =
      "Agency" :=
  ⟨by decide,
   (determine_company_stage_spec
     { company_type := "Agency", lifecyclestage := "customer" }).1 (by decide)⟩

/-- Company attributes on which the watcher list of
`get_assignment_for_stage` contains a repeated identifier. -/
def dupWatcherDetails : CompanyDetails :=
  { ae_owner := "A", sdr_owner := "B", hubspot_owner_id := "B" }

/-- C3 counterexample: for stage Prospect with sales owner "A" and both
the outreach owner and the generic company owner equal to "B", the code
returns the watcher list `["B", "B"]`, which repeats an identifier — the
claimed de-duplication of the watcher list does not hold. -/
theorem assignment_watchers_not_dedup :
    (get_assignment_for_stage "Prospect" dupWatcherDetails).2 = ["B", "B"] ∧
    ¬ ((get_assignment_for_stage "Prospect" dupWatcherDetails).2.Nodup) := by
  constructor
  · decide
  · decide

/-- C3 amended: for every stage and attribute map, the owner and the
watcher list are exactly as the per-stage rules state (Prospect: sales
owner else company owner, watchers are outreach owner and company owner
minus the chosen owner and empties; Customer: brand champion else
company owner, watcher the company owner unless empty or the owner; any
other stage: company owner and no watchers); every watcher is non-empty
and differs from the chosen owner, and the function is pure — but the
watcher list is NOT de-duplicated: it can repeat an identifier when the
outreach owner equals the company owner (see the counterexample). -/
theorem get_assignment_for_stage_spec (stage : String) (d : CompanyDetails) :
    (stage = "Prospect" →
      (get_assignment_for_stage stage d).1 =
        (if d.ae_owner ≠ "" then d.ae_owner else d.hubspot_owner_id) ∧
      (get_assignment_for_stage stage d).2 =
        [d.sdr_owner, d.hubspot_owner_id].filter
          (fun uid => uid ≠ "" ∧
            uid ≠ (if d.ae_owner ≠ "" then d.ae_owner else d.hubspot_owner_id))) ∧
    (stage = "Customer" →
      (get_assignment_for_stage stage d).1 =
        (if d.brand_champ ≠ "" then d.brand_champ else d.hubspot_owner_id) ∧
      (get_assignment_for_stage stage d).2 =
        (if d.hubspot_owner_id ≠ "" ∧ d.hubspot_owner_id ≠
              (if d.brand_champ ≠ "" then d.brand_champ else d.hubspot_owner_id)
         then [d.hubspot_owner_id] else [])) ∧
    (stage ≠ "Prospect" → stage ≠ "Customer" →
      get_assignment_for_stage stage d = (d.hubspot_owner_id, [])) ∧
    (∀ u ∈ (get_assignment_for_stage stage d).2,
      u ≠ "" ∧ u ≠ (get_assignment_for_stage stage d).1) := by
  refine ⟨?_, ?_, ?_, ?_⟩
  · intro h
    subst h
    exact ⟨rfl, rfl⟩
  · intro h
    subst h
    exact ⟨rfl, rfl⟩
  · intro h1 h2
    simp only [get_assignment_for_stage, if_neg h1, if_neg h2]
  · intro u hu
    by_cases h1 : stage = "Prospect"
    · subst h1
      have he : get_assignment_for_stage "Prospect" d =
          ((if d.ae_owner ≠ "" then d.ae_owner else d.hubspot_owner_id),
           [d.sdr_owner, d.hubspot_owner_id].filter
             (fun uid => uid ≠ "" ∧
               uid ≠ (if d.ae_owner ≠ "" then d.ae_owner else d.hubspot_owner_id))) := rfl
      rw [he] at hu ⊢
      have := List.of_mem_filter hu
      simpa using this
    · by_cases h2 : stage = "Customer"
      · subst h2
        have he : get_assignment_for_stage "Customer" d =
            ((if d.brand_champ ≠ "" then d.brand_champ else d.hubspot_owner_id),
             (if d.hubspot_owner_id ≠ "" ∧ d.hubspot_owner_id ≠
                   (if d.brand_champ ≠ "" then d.brand_champ else d.hubspot_owner_id)
              then [d.hubspot_owner_id] else [])) := rfl
        rw [he] at hu ⊢
        by_cases hc : d.hubspot_owner_id ≠ "" ∧ d.hubspot_owner_id ≠
            (if d.brand_champ ≠ "" then d.brand_champ else d.hubspot_owner_id)
        · rw [if_pos hc] at hu
          rcases List.mem_singleton.1 hu with rfl
          exact ⟨hc.1, hc.2⟩
        · rw [if_neg hc] at hu
          simp at hu
      · have he : get_assignment_for_stage stage d = (d.hubspot_owner_id, []) := by
          simp only [get_assignment_for_stage, if_neg h1, if_neg h2]
        rw [he] at hu
        simp at hu

theorem get_assignment_for_stage_spec_witness :
    (get_assignment_for_stage "Prospect"
      { sdr_owner := "S", hubspot_owner_id := "G" }).1 = "G" ∧
    (get_assignment_for_stage "Prospect"
      { sdr_owner := "S", hubspot_owner_id := "G" }).2 = ["S"] := by
  have h := (get_assignment_for_stage_spec "Prospect"
    { sdr_owner := "S", hubspot_owner_id := "G" }).1 rfl
  exact ⟨by simpa using h.1, by decide⟩

/-- C5: a single-name search yields at most five records; every returned
record's similarity is 1.0 on a case-insensitive exact name match, 0.9
when either lowercased string contains the other, and 0.8 otherwise
(records matched only on the domain included); a backend failure yields
the empty result, and a name whose search fails contributes nothing to
the run (the remaining names are processed as if it were absent). -/
theorem search_company_by_name_spec (env : Env) (company_name : String) :
    (search_company_by_name env company_name).length ≤ 5 ∧
    (∀ hit ∈ search_company_by_name env company_name,
      hit.similarity =
        (if lowerStr hit.name = lowerStr company_name then mkRat 1 1
         else if strIn (lowerStr company_name) (lowerStr hit.name) ||
                 strIn (lowerStr hit.name) (lowerStr company_name) then mkRat 9 10
         else mkRat 4 5)) ∧
    (env.dbFail company_name = true → search_company_by_name env company_name = []) ∧
    (∀ ns1 ns2 : List String, env.dbFail company_name = true →
      collectMatches env (ns1 ++ company_name :: ns2) = collectMatches env (ns1 ++ ns2)) := by
  refine ⟨?_, ?_, ?_, ?_⟩
  · by_cases hf : env.dbFail company_name
    · simp [search_company_by_name, hf]
    · simp only [search_company_by_name, if_neg hf, List.length_map]
      exact (env.table.filter _).length_take_le 5
  · intro hit hhit
    by_cases hf : env.dbFail company_name
    · simp [search_company_by_name, hf] at hhit
    · simp only [search_company_by_name, if_neg hf, List.mem_map] at hhit
      rcases hhit with ⟨record, _, rfl⟩
      rfl
  · intro hf
    simp [search_company_by_name, hf]
  · intro ns1 ns2 hf
    have hempty : search_company_by_name env company_name = [] := by
      simp [search_company_by_name, hf]
    rw [collectMatches_eq_stream, collectMatches_eq_stream,
      List.flatMap_append, List.flatMap_append, List.flatMap_cons, hempty]
    simp

/-- A two-row companies table used to instantiate the universally
quantified theorems at concrete inputs. -/
def sampleTable : List DBRec :=
  [{ hubspot_id := "E1", name := "Acme Corp", domain := "acme.com" },
   { hubspot_id := "E2", name := "Acme Anvils", domain := "anvils.com" }]

/-- A concrete oracle environment (the search backend fails exactly on
the query "bad"; every CRM write succeeds; company details are all
empty, classifying every company as Prospect with no owners). -/
def envSample : Env :=
  { table := sampleTable
    dbFail := fun n => n == "bad"
    extract := fun _ => ["Acme"]
    details := fun _ => {}
    linkOk := fun _ => true
    ownerOk := fun _ => true
    sharedOk := fun _ => true
    ownerName := fun _ => ""
    slackEnabled := false
    threshold := mkRat 4 5 }

/-- The first candidate admitted when `envSample` is searched for "Acme". -/
def wMatchE1 : MatchResult :=
  { hubspot_id := "E1", name := "Acme Corp", match_type := "company",
    similarity := mkRat 9 10, stage := "Prospect", owner_id := "", shared_user_ids := [] }

theorem candidate_admission_spec_witness :
    wMatchE1 ∈ collectMatches envSample ["Acme", "Acme Corp"] ∧
    envSample.threshold ≤ wMatchE1.similarity :=
  ⟨by decide,
   (candidate_admission_spec envSample ["Acme", "Acme Corp"]).2.2 wMatchE1 (by decide)⟩

theorem search_company_by_name_spec_witness :
    envSample.dbFail "bad" = true ∧
    collectMatches envSample (["Acme"] ++ "bad" :: []) =
      collectMatches envSample (["Acme"] ++ []) :=
  ⟨rfl, (search_company_by_name_spec envSample "bad").2.2.2 ["Acme"] [] rfl⟩

/-- One row of the `match_history` audit table written by
`SupabaseClient.log_match` (supabase_client.py lines 179-198). -/
structure AuditEntry where
  signal_id : String
  matched_type : String
  matched_hubspot_id : String
  confidence : ℚ
  association_created : Bool
deriving DecidableEq, Repr

/-- The state produced by the association loop of `match_signal`
(matcher.py lines 199-209): the matches with their updated
`association_created` flags, the association counter, the ids for which
a link attempt was made, and the audit entries written. -/
structure LinkRun where
  ms : List MatchResult := []
  created : Nat := 0
  attempts : List String := []
  audits : List AuditEntry := []
deriving DecidableEq, Repr

/-- The association loop of `match_signal` (matcher.py lines 199-209):
each match whose id is not among the signal's existing company links gets
one link attempt, has its flag set to the attempt's outcome, and gets one
audit entry whether or not the attempt succeeded; matches already linked
are skipped entirely. -/
def runLinks (env : Env) (signal_id : String) (existing_companies : List String) :
    List MatchResult → LinkRun
  | [] => {}
  | m :: rest =>
    if m.hubspot_id ∉ existing_companies then
      let success := env.linkOk m.hubspot_id
      let r := runLinks env signal_id existing_companies rest
      { ms := { m with association_created := success } :: r.ms,
        created := (if success then 1 else 0) + r.created,
        attempts := m.hubspot_id :: r.attempts,
        audits := { signal_id := signal_id, matched_type := "company",
                    matched_hubspot_id := m.hubspot_id, confidence := m.similarity,
                    association_created := success } :: r.audits }
    else
      let r := runLinks env signal_id existing_companies rest
      { ms := m :: r.ms, created := r.created, attempts := r.attempts, audits := r.audits }

theorem runLinks_attempts (env : Env) (signal_id : String)
    (existing_companies : List String) :
    ∀ ms : List MatchResult,
      (runLinks env signal_id existing_companies ms).attempts =
        (ms.filter (fun m => decide (m.hubspot_id ∉ existing_companies))).map
          (fun m => m.hubspot_id) := by
  intro ms
  induction ms with
  | nil => rfl
  | cons m rest ih =>
    by_cases hm : m.hubspot_id ∉ existing_companies
    · simp [runLinks, hm, List.filter_cons, ih]
    · simp [runLinks, hm, List.filter_cons, ih]

theorem runLinks_audits (env : Env) (signal_id : String)
    (existing_companies : List String) :
    ∀ ms : List MatchResult,
      (runLinks env signal_id existing_companies ms).audits =
        (ms.filter (fun m => decide (m.hubspot_id ∉ existing_companies))).map
          (fun m => { signal_id := signal_id, matched_type := "company",
                      matched_hubspot_id := m.hubspot_id, confidence := m.similarity,
                      association_created := env.linkOk m.hubspot_id : AuditEntry }) := by
  intro ms
  induction ms with
  | nil => rfl
  | cons m rest ih =>
    by_cases hm : m.hubspot_id ∉ existing_companies
    · simp [runLinks, hm, List.filter_cons, ih]
    · simp [runLinks, hm, List.filter_cons, ih]

theorem runLinks_ms (env : Env) (signal_id : String)
    (existing_companies : List String) :
    ∀ ms : List MatchResult,
      (runLinks env signal_id existing_companies ms).ms =
        ms.map (fun m =>
          if m.hubspot_id ∉ existing_companies
          then { m with association_created := env.linkOk m.hubspot_id }
          else m) := by
  intro ms
  induction ms with
  | nil => rfl
  | cons m rest ih =>
    by_cases hm : m.hubspot_id ∉ existing_companies
    · simp [runLinks, hm, ih]
    · have hmem := not_not.1 hm
      simp [runLinks, hm, ih, hmem]

theorem runLinks_created (env : Env) (signal_id : String)
    (existing_companies : List String) :
    ∀ ms : List MatchResult, (∀ m ∈ ms, m.association_created = false) →
      (runLinks env signal_id existing_companies ms).created =
        ((runLinks env signal_id existing_companies ms).ms.filter
          (fun m => m.association_created)).length := by
  intro ms
  induction ms with
  | nil => intro _; rfl
  | cons m rest ih =>
    intro hflags
    have hm0 : m.association_created = false := hflags m (List.mem_cons_self _ _)
    have hrest : ∀ m' ∈ rest, m'.association_created = false :=
      fun m' hm' => hflags m' (List.mem_cons_of_mem m hm')
    have ihr := ih hrest
    by_cases hm : m.hubspot_id ∉ existing_companies
    · cases hs : env.linkOk m.hubspot_id
      · simp [runLinks, hm, hs, List.filter_cons, ihr]
      · simp [runLinks, hm, hs, List.filter_cons, ihr]
        all_goals omega
    · have hmem := not_not.1 hm
      simp [runLinks, hm, hmem, List.filter_cons, ihr, hm0]

/-- The signal as fetched by `HubSpotClient.get_signal`: the properties
read by `match_signal` (matcher.py lines 146-156) and the existing
associations split by kind.  Python's `properties.get(...)` may yield
`None`, but every use is behind `or`/`or ""`, under which `None` and `""`
behave identically, so absent values are modelled as `""`. -/
structure SignalRec where
  signal_type : String := ""
  signal_name : String := ""
  signal_description : String := ""
  signal_citation : String := ""
  existing_companies : List String := []
  existing_contacts : List String := []
deriving DecidableEq, Repr

/-- A Slack webhook call made by `match_signal`: either
`notify_signal_no_match` or `notify_signal_matched`
(slack_client.py), recorded with the arguments passed. -/
inductive Notification where
  | noMatch (signal_id signal_name signal_description : String)
      (extracted_companies : List String)
  | matched (signal_id signal_name signal_description company_name company_id
      company_stage : String) (confidence : ℚ) (owner_name : String)
      (shared_users : List String)
deriving DecidableEq, Repr

/-- One entry of the `company_matches` list in the dict returned by
`match_signal` (matcher.py line 234). -/
structure CompanyMatchOut where
  hubspot_id : String
  name : String
  similarity : ℚ
  stage : String
  association_created : Bool
deriving DecidableEq, Repr

/-- The `best_match` summary in the dict returned by `match_signal`
(matcher.py line 235). -/
structure BestMatchOut where
  hubspot_id : String
  name : String
  stage : String
  owner_assigned : String
  shared_users : List String
deriving DecidableEq, Repr

/-- The dict returned by `match_signal`.  Keys that are absent on some
paths (`signal_type` on the fatal path, `extracted_companies` on the
no-text and fatal paths, `best_match` and `error` elsewhere) are
`Option`s, `none` meaning the key is absent. -/
structure MatchOutcome where
  signal_id : String
  signal_type : Option String := none
  error : Option String := none
  extracted_companies : Option (List String) := none
  company_matches : List CompanyMatchOut := []
  best_match : Option BestMatchOut := none
  contact_matches : List String := []
  total_matches : Nat := 0
  associations_created : Nat := 0
deriving DecidableEq, Repr

/-- The externally visible side effects of one `match_signal` run:
extraction calls, search queries, company-detail fetches, link attempts,
audit entries, owner/watcher write attempts and Slack notifications, in
the order the code performs them. -/
structure Trace where
  extract_calls : List String := []
  searches : List String := []
  detail_fetches : List String := []
  link_attempts : List String := []
  audits : List AuditEntry := []
  owner_sets : List (String × String) := []
  shared_sets : List (String × List String) := []
  notifications : List Notification := []
deriving DecidableEq, Repr

/-- The dict returned by the outer `except` of `match_signal`
(matcher.py line 243): only `signal_id`, `error` and the empty/zero
fields. -/
def fatal_result (signal_id error : String) : MatchOutcome :=
  { signal_id := signal_id, error := some error }

/-- Method `match_signal` (matcher.py lines 142-243), returning
the result dict together with the trace of external effects.

Two modelling notes.  (1) The unreachable `none` arm of the best-match
selection corresponds to Python dereferencing `best_match = None`, which
would be caught by the outer `except` and returned as the fatal dict.
(2) Python reads `best_match.association_created` (line 229) after the
link loop mutated the selected object in place; each list element is a
distinct freshly constructed object with flag initially `False`, so that
flag equals `linkOk` of its id when the id was not already linked, and
`false` otherwise — inlined here as `best_created`. -/
def match_signal (env : Env) (sig : SignalRec) (signal_id : String)
    (notify_slack : Bool) : MatchOutcome × Trace :=
  let signal_type := if sig.signal_type = "" then "company" else sig.signal_type
  let signal_name := if sig.signal_name = "" then "Signal" else sig.signal_name
  let description := sig.signal_description
  let citation := sig.signal_citation
  let existing_companies := sig.existing_companies
  let full_text := trimStr (description ++ " " ++ citation)
  if full_text = "" then
    ({ signal_id := signal_id, signal_type := some signal_type,
       error := some "No text content" }, {})
  else
    let company_names := env.extract full_text
    if company_names = [] then
      ({ signal_id := signal_id, signal_type := some signal_type,
         extracted_companies := some [] },
       { extract_calls := [full_text],
         notifications :=
           if notify_slack ∧ env.slackEnabled then
             [Notification.noMatch signal_id signal_name description []] else [] })
    else
      let all_matches := collectMatches env company_names
      if all_matches = [] then
        ({ signal_id := signal_id, signal_type := some signal_type,
           extracted_companies := some company_names },
         { extract_calls := [full_text], searches := company_names,
           notifications :=
             if notify_slack ∧ env.slackEnabled then
               [Notification.noMatch signal_id signal_name description company_names]
             else [] })
      else
        match select_best_match all_matches with
        | none =>
          (fatal_result signal_id "NoneType has no attribute name",
           { extract_calls := [full_text], searches := company_names,
             detail_fetches := all_matches.map (fun m => m.hubspot_id) })
        | some best_match =>
          let linked := runLinks env signal_id existing_companies all_matches
          let best_created :=
            if best_match.hubspot_id ∈ existing_companies then false
            else env.linkOk best_match.hubspot_id
          let owner_name :=
            if best_match.owner_id ≠ "" ∧ env.ownerOk best_match.owner_id
            then env.ownerName best_match.owner_id else ""
          let shared_user_names :=
            if best_match.shared_user_ids ≠ [] ∧ env.sharedOk best_match.shared_user_ids
            then best_match.shared_user_ids.map env.ownerName else []
          ({ signal_id := signal_id, signal_type := some signal_type,
             extracted_companies := some company_names,
             company_matches := linked.ms.map (fun m =>
               { hubspot_id := m.hubspot_id, name := m.name, similarity := m.similarity,
                 stage := m.stage, association_created := m.association_created }),
             best_match := some
               { hubspot_id := best_match.hubspot_id, name := best_match.name,
                 stage := best_match.stage, owner_assigned := owner_name,
                 shared_users := shared_user_names },
             total_matches := all_matches.length,
             associations_created := linked.created },
           { extract_calls := [full_text], searches := company_names,
             detail_fetches := all_matches.map (fun m => m.hubspot_id),
             link_attempts := linked.attempts, audits := linked.audits,
             owner_sets :=
               if best_match.owner_id ≠ "" then [(signal_id, best_match.owner_id)]
               else [],
             shared_sets :=
               if best_match.shared_user_ids ≠ []
               then [(signal_id, best_match.shared_user_ids)] else [],
             notifications :=
               if notify_slack ∧ env.slackEnabled ∧ best_created then
                 [Notification.matched signal_id signal_name description
                    best_match.name best_match.hubspot_id best_match.stage
                    best_match.similarity owner_name shared_user_names]
               else [] })

/-- The ids whose link attempt succeeded in a link run — after the run
these links exist in the CRM. -/
def linkedIds (r : LinkRun) : List String :=
  (r.ms.filter (fun m => m.association_created)).map (fun m => m.hubspot_id)

theorem runLinks_attempts_not_existing (env : Env) (signal_id : String)
    (existing_companies : List String) (ms : List MatchResult) :
    ∀ i ∈ (runLinks env signal_id existing_companies ms).attempts,
      i ∉ existing_companies := by
  intro i hi
  rw [runLinks_attempts] at hi
  rcases List.mem_map.1 hi with ⟨m, hm, rfl⟩
  have hp := (List.mem_filter.1 hm).2
  exact of_decide_eq_true hp

theorem runLinks_audits_not_existing (env : Env) (signal_id : String)
    (existing_companies : List String) (ms : List MatchResult) :
    ∀ a ∈ (runLinks env signal_id existing_companies ms).audits,
      a.matched_hubspot_id ∉ existing_companies := by
  intro a ha
  rw [runLinks_audits] at ha
  rcases List.mem_map.1 ha with ⟨m, hm, rfl⟩
  have hp := (List.mem_filter.1 hm).2
  show m.hubspot_id ∉ existing_companies
  exact of_decide_eq_true hp

/-- C6: in the association loop, a candidate whose id is already among
the signal's existing links gets no link attempt and no audit entry;
every other candidate gets exactly one audit entry per link attempt
(attempts and audits are the same filtered sequence, so their counts
agree and the audit records the attempt's outcome).  Consequently a
second run over a CRM state to which run 1's successful links were added
makes no link attempt and writes no audit entry for any entity linked in
run 1. -/
theorem association_writer_idempotent (env env2 : Env) (signal_id : String)
    (existing_companies : List String) (ms ms2 : List MatchResult) :
    (runLinks env signal_id existing_companies ms).attempts =
      (ms.filter (fun m => decide (m.hubspot_id ∉ existing_companies))).map
        (fun m => m.hubspot_id) ∧
    (runLinks env signal_id existing_companies ms).audits =
      (ms.filter (fun m => decide (m.hubspot_id ∉ existing_companies))).map
        (fun m => { signal_id := signal_id, matched_type := "company",
                    matched_hubspot_id := m.hubspot_id, confidence := m.similarity,
                    association_created := env.linkOk m.hubspot_id : AuditEntry }) ∧
    (runLinks env signal_id existing_companies ms).audits.length =
      (runLinks env signal_id existing_companies ms).attempts.length ∧
    (∀ m ∈ ms, m.hubspot_id ∈ existing_companies →
      m.hubspot_id ∉ (runLinks env signal_id existing_companies ms).attempts ∧
      ∀ a ∈ (runLinks env signal_id existing_companies ms).audits,
        a.matched_hubspot_id ≠ m.hubspot_id) ∧
    (∀ i ∈ linkedIds (runLinks env signal_id existing_companies ms),
      i ∉ (runLinks env2 signal_id
            (existing_companies ++ linkedIds (runLinks env signal_id existing_companies ms))
            ms2).attempts ∧
      ∀ a ∈ (runLinks env2 signal_id
              (existing_companies ++ linkedIds (runLinks env signal_id existing_companies ms))
              ms2).audits,
        a.matched_hubspot_id ≠ i) := by
  refine ⟨runLinks_attempts env signal_id existing_companies ms,
          runLinks_audits env signal_id existing_companies ms, ?_, ?_, ?_⟩
  · rw [runLinks_attempts, runLinks_audits]
    simp
  · intro m _ hmem
    constructor
    · intro hin
      exact runLinks_attempts_not_existing env signal_id existing_companies ms _ hin hmem
    · intro a ha heq
      exact runLinks_audits_not_existing env signal_id existing_companies ms a ha
        (heq ▸ hmem)
  · intro i hi
    have hmem : i ∈ existing_companies ++
        linkedIds (runLinks env signal_id existing_companies ms) :=
      List.mem_append_right _ hi
    constructor
    · intro hin
      exact runLinks_attempts_not_existing env2 signal_id _ ms2 _ hin hmem
    · intro a ha heq
      exact runLinks_audits_not_existing env2 signal_id _ ms2 a ha (heq ▸ hmem)

theorem association_writer_idempotent_witness :
    "E1" ∈ linkedIds (runLinks envSample "S1" [] [wMatchE1]) ∧
    "E1" ∉ (runLinks envSample "S1"
      ([] ++ linkedIds (runLinks envSample "S1" [] [wMatchE1])) [wMatchE1]).attempts :=
  ⟨by decide,
   ((association_writer_idempotent envSample envSample "S1" [] [wMatchE1]
      [wMatchE1]).2.2.2.2 "E1" (by decide)).1⟩

/-- The trimmed concatenated text of a signal (matcher.py line 160). -/
def fullTextOf (sig : SignalRec) : String :=
  trimStr (sig.signal_description ++ " " ++ sig.signal_citation)

/-- The display name of a signal (matcher.py line 148). -/
def signalNameOf (sig : SignalRec) : String :=
  if sig.signal_name = "" then "Signal" else sig.signal_name

/-- The `association_created` flag of the selected best match after the
link loop ran (matcher.py lines 201-203 and 229). -/
def bestCreated (env : Env) (sig : SignalRec) (b : MatchResult) : Bool :=
  if b.hubspot_id ∈ sig.existing_companies then false
  else env.linkOk b.hubspot_id

theorem match_signal_noText (env : Env) (sig : SignalRec) (signal_id : String)
    (notify_slack : Bool) (h : fullTextOf sig = "") :
    match_signal env sig signal_id notify_slack =
      ({ signal_id := signal_id,
         signal_type := some (if sig.signal_type = "" then "company" else sig.signal_type),
         error := some "No text content" }, {}) := by
  rw [fullTextOf] at h
  simp [match_signal, h]

theorem match_signal_noNames (env : Env) (sig : SignalRec) (signal_id : String)
    (notify_slack : Bool) (h1 : fullTextOf sig ≠ "")
    (h2 : env.extract (fullTextOf sig) = []) :
    match_signal env sig signal_id notify_slack =
      ({ signal_id := signal_id,
         signal_type := some (if sig.signal_type = "" then "company" else sig.signal_type),
         extracted_companies := some [] },
       { extract_calls := [fullTextOf sig],
         notifications :=
           if notify_slack ∧ env.slackEnabled then
             [Notification.noMatch signal_id (signalNameOf sig) sig.signal_description []]
           else [] }) := by
  rw [fullTextOf] at h1 h2 ⊢
  rw [signalNameOf]
  simp [match_signal, h1, h2]

theorem match_signal_noCands (env : Env) (sig : SignalRec) (signal_id : String)
    (notify_slack : Bool) (h1 : fullTextOf sig ≠ "")
    (h2 : env.extract (fullTextOf sig) ≠ [])
    (h3 : collectMatches env (env.extract (fullTextOf sig)) = []) :
    match_signal env sig signal_id notify_slack =
      ({ signal_id := signal_id,
         signal_type := some (if sig.signal_type = "" then "company" else sig.signal_type),
         extracted_companies := some (env.extract (fullTextOf sig)) },
       { extract_calls := [fullTextOf sig], searches := env.extract (fullTextOf sig),
         notifications :=
           if notify_slack ∧ env.slackEnabled then
             [Notification.noMatch signal_id (signalNameOf sig) sig.signal_description
               (env.extract (fullTextOf sig))]
           else [] }) := by
  rw [fullTextOf] at h1 h2 h3 ⊢
  rw [signalNameOf]
  simp [match_signal, h1, h2, h3]

theorem match_signal_success (env : Env) (sig : SignalRec) (signal_id : String)
    (notify_slack : Bool) (b : MatchResult) (h1 : fullTextOf sig ≠ "")
    (h2 : env.extract (fullTextOf sig) ≠ [])
    (h3 : collectMatches env (env.extract (fullTextOf sig)) ≠ [])
    (hb : select_best_match (collectMatches env (env.extract (fullTextOf sig))) = some b) :
    match_signal env sig signal_id notify_slack =
      ({ signal_id := signal_id,
         signal_type := some (if sig.signal_type = "" then "company" else sig.signal_type),
         extracted_companies := some (env.extract (fullTextOf sig)),
         company_matches :=
           (runLinks env signal_id sig.existing_companies
             (collectMatches env (env.extract (fullTextOf sig)))).ms.map (fun m =>
               { hubspot_id := m.hubspot_id, name := m.name, similarity := m.similarity,
                 stage := m.stage, association_created := m.association_created }),
         best_match := some
           { hubspot_id := b.hubspot_id, name := b.name, stage := b.stage,
             owner_assigned :=
               if b.owner_id ≠ "" ∧ env.ownerOk b.owner_id
               then env.ownerName b.owner_id else "",
             shared_users :=
               if b.shared_user_ids ≠ [] ∧ env.sharedOk b.shared_user_ids
               then b.shared_user_ids.map env.ownerName else [] },
         total_matches := (collectMatches env (env.extract (fullTextOf sig))).length,
         associations_created :=
           (runLinks env signal_id sig.existing_companies
             (collectMatches env (env.extract (fullTextOf sig)))).created },
       { extract_calls := [fullTextOf sig], searches := env.extract (fullTextOf sig),
         detail_fetches :=
           (collectMatches env (env.extract (fullTextOf sig))).map (fun m => m.hubspot_id),
         link_attempts :=
           (runLinks env signal_id sig.existing_companies
             (collectMatches env (env.extract (fullTextOf sig)))).attempts,
         audits :=
           (runLinks env signal_id sig.existing_companies
             (collectMatches env (env.extract (fullTextOf sig)))).audits,
         owner_sets := if b.owner_id ≠ "" then [(signal_id, b.owner_id)] else [],
         shared_sets :=
           if b.shared_user_ids ≠ [] then [(signal_id, b.shared_user_ids)] else [],
         notifications :=
           if notify_slack ∧ env.slackEnabled ∧ bestCreated env sig b then
             [Notification.matched signal_id (signalNameOf sig) sig.signal_description
                b.name b.hubspot_id b.stage b.similarity
                (if b.owner_id ≠ "" ∧ env.ownerOk b.owner_id
                 then env.ownerName b.owner_id else "")
                (if b.shared_user_ids ≠ [] ∧ env.sharedOk b.shared_user_ids
                 then b.shared_user_ids.map env.ownerName else [])]
           else [] }) := by
  rw [fullTextOf] at h1 h2 h3 hb ⊢
  rw [signalNameOf, bestCreated]
  simp [match_signal, h1, h2, h3, hb]

/-- A signal with empty description and citation. -/
def sigEmpty : SignalRec := {}

/-- C7 counterexample: on a signal whose description and citation are
both empty, the error field of the result is `"No text content"`
(capital N, as written at matcher.py line 163), so it does not equal the
claimed `"no text content"`. -/
theorem no_text_error_capitalisation :
    (match_signal envSample sigEmpty "S1" true).1.error ≠ some "no text content" ∧
    (match_signal envSample sigEmpty "S1" true).1.error = some "No text content" := by
  constructor
  · decide
  · decide

/-- C7 amended: for every signal whose description and citation trim to
the empty string, `match_signal` short-circuits: the result's error field
is `"No text content"` (capitalised as in the source), zero associations
are created, and no extraction, search, link attempt, audit write or
notification happens (the effect trace is empty). -/
theorem no_text_shortcircuit (env : Env) (sig : SignalRec) (signal_id : String)
    (notify_slack : Bool) (h : fullTextOf sig = "") :
    (match_signal env sig signal_id notify_slack).1.error = some "No text content" ∧
    (match_signal env sig signal_id notify_slack).1.associations_created = 0 ∧
    (match_signal env sig signal_id notify_slack).2 = {} := by
  rw [match_signal_noText env sig signal_id notify_slack h]
  exact ⟨rfl, rfl, rfl⟩

theorem no_text_shortcircuit_witness :
    fullTextOf sigEmpty = "" ∧
    (match_signal envSample sigEmpty "S1" true).1.error = some "No text content" :=
  ⟨by decide, (no_text_shortcircuit envSample sigEmpty "S1" true (by decide)).1⟩

/-- The environment of the spec's end-to-end scenario: one company
"Acme Corp" (entity E1), extraction finds exactly "Acme Corp", E1's
details classify it as Prospect with sales owner U1, every CRM write
succeeds.

Modelled from the spec: the company details and owner-name lookups stand
for the missing `HubSpotClient.get_company_details` / `get_owner_name`
(spec §6 `fetchEntityDetails`, `resolveOwnerDisplayName`). -/
def envAcme : Env :=
  { table := [{ hubspot_id := "E1", name := "Acme Corp", domain := "acme.com" }]
    dbFail := fun _ => false
    extract := fun _ => ["Acme Corp"]
    details := fun _ => { lifecyclestage := "lead", ae_owner := "U1" }
    linkOk := fun _ => true
    ownerOk := fun _ => true
    sharedOk := fun _ => true
    ownerName := fun u => if u = "U1" then "User One" else ""
    slackEnabled := false
    threshold := mkRat 4 5 }

/-- The signal of the end-to-end scenario. -/
def sigAcme : SignalRec := { signal_description := "Acme Corp opens new office" }

/-- C8: on the end-to-end scenario (text "Acme Corp opens new office",
extraction ["Acme Corp"], one exact search hit for E1, details
classifying E1 as Prospect with sales owner U1), `match_signal` returns
exactly one candidate (E1, similarity 1.0, stage Prospect), one
association created, owner U1 applied (one owner-write attempt for U1,
display name resolved), and no watchers since no secondary owners are
configured. -/
theorem match_signal_acme_scenario :
    (match_signal envAcme sigAcme "S1" true).1.company_matches =
      [{ hubspot_id := "E1", name := "Acme Corp", similarity := mkRat 1 1,
         stage := "Prospect", association_created := true }] ∧
    (match_signal envAcme sigAcme "S1" true).1.associations_created = 1 ∧
    (match_signal envAcme sigAcme "S1" true).1.total_matches = 1 ∧
    (match_signal envAcme sigAcme "S1" true).1.best_match =
      some { hubspot_id := "E1", name := "Acme Corp", stage := "Prospect",
             owner_assigned := "User One", shared_users := [] } ∧
    (match_signal envAcme sigAcme "S1" true).2.owner_sets = [("S1", "U1")] ∧
    (match_signal envAcme sigAcme "S1" true).2.shared_sets = [] := by
  refine ⟨?_, ?_, ?_, ?_, ?_, ?_⟩ <;> decide

/-- The environment `envAcme` with the Slack notifier configured. -/
def envAcmeSlack : Env := { envAcme with slackEnabled := true }

/-- The signal `sigAcme` already linked to E1 in the CRM. -/
def sigLinked : SignalRec :=
  { signal_description := "Acme Corp opens new office", existing_companies := ["E1"] }

/-- C9 counterexample: with the notifier configured and notification
enabled, a run that selects an authoritative match whose link already
exists (so no new association is created) attempts NO notification at
all — the matched notification is gated on `association_created`
(matcher.py line 229), not on a match having been selected. -/
theorem matched_notification_skipped :
    ((match_signal envAcmeSlack sigLinked "S1" true).1.best_match).isSome = true ∧
    envAcmeSlack.slackEnabled = true ∧
    (match_signal envAcmeSlack sigLinked "S1" true).2.notifications = [] := by
  refine ⟨?_, rfl, ?_⟩ <;> decide

theorem collectMatches_flags (env : Env) (company_names : List String) :
    ∀ m ∈ collectMatches env company_names, m.association_created = false := by
  intro m hm
  rw [collectMatches_eq_stream] at hm
  rcases List.mem_map.1 hm with ⟨h, _, rfl⟩
  rfl

theorem select_best_match_isSome (l : List MatchResult) (h : l ≠ []) :
    ∃ b, select_best_match l = some b := by
  rw [select_best_match_eq_firstMax]
  cases l with
  | nil => exact absurd rfl h
  | cons m t =>
    cases hb : firstMaxBySpec t with
    | none => exact ⟨m, by simp [firstMaxBySpec, hb]⟩
    | some b =>
      by_cases hlt : keyLt (sort_key m) (sort_key b)
      · exact ⟨b, by simp [firstMaxBySpec, hb, hlt]⟩
      · exact ⟨m, by simp [firstMaxBySpec, hb, hlt]⟩

/-- C9 amended: when a notifier is configured and notification enabled,
the engine attempts an unmatched notification when extraction yields no
names or no candidate is admitted; when an authoritative match has been
selected, a matched notification is attempted if and only if that
match's association was newly created in this run — if its link already
existed or the link attempt failed, no notification is attempted. -/
theorem notification_rules (env : Env) (sig : SignalRec) (signal_id : String)
    (notify_slack : Bool) (hn : notify_slack = true) (hs : env.slackEnabled = true)
    (hft : fullTextOf sig ≠ "") :
    (env.extract (fullTextOf sig) = [] →
      (match_signal env sig signal_id notify_slack).2.notifications =
        [Notification.noMatch signal_id (signalNameOf sig) sig.signal_description []]) ∧
    (env.extract (fullTextOf sig) ≠ [] →
      collectMatches env (env.extract (fullTextOf sig)) = [] →
      (match_signal env sig signal_id notify_slack).2.notifications =
        [Notification.noMatch signal_id (signalNameOf sig) sig.signal_description
          (env.extract (fullTextOf sig))]) ∧
    (∀ b, select_best_match (collectMatches env (env.extract (fullTextOf sig))) = some b →
      ((match_signal env sig signal_id notify_slack).2.notifications = [] ↔
        bestCreated env sig b = false) ∧
      (bestCreated env sig b = true →
        (match_signal env sig signal_id notify_slack).2.notifications =
          [Notification.matched signal_id (signalNameOf sig) sig.signal_description
             b.name b.hubspot_id b.stage b.similarity
             (if b.owner_id ≠ "" ∧ env.ownerOk b.owner_id
              then env.ownerName b.owner_id else "")
             (if b.shared_user_ids ≠ [] ∧ env.sharedOk b.shared_user_ids
              then b.shared_user_ids.map env.ownerName else [])])) := by
  refine ⟨?_, ?_, ?_⟩
  · intro h2
    rw [match_signal_noNames env sig signal_id notify_slack hft h2]
    simp [hn, hs]
  · intro h2 h3
    rw [match_signal_noCands env sig signal_id notify_slack hft h2 h3]
    simp [hn, hs]
  · intro b hb
    have h3 : collectMatches env (env.extract (fullTextOf sig)) ≠ [] := by
      intro hc
      rw [hc] at hb
      simp [select_best_match] at hb
    have h2 : env.extract (fullTextOf sig) ≠ [] := by
      intro he
      apply h3
      rw [he]
      rfl
    rw [match_signal_success env sig signal_id notify_slack b hft h2 h3 hb]
    constructor
    · cases hbc : bestCreated env sig b
      · simp [hn, hs, hbc]
      · simp [hn, hs, hbc]
    · intro hbc
      simp [hn, hs, hbc]

/-- The match built for E1 in the Acme scenario, as selected by
`select_best_match`. -/
def wBest : MatchResult :=
  { hubspot_id := "E1", name := "Acme Corp", match_type := "company",
    similarity := mkRat 1 1, stage := "Prospect", owner_id := "U1",
    shared_user_ids := [] }

theorem notification_rules_witness :
    bestCreated envAcmeSlack sigAcme wBest = true ∧
    (match_signal envAcmeSlack sigAcme "S1" true).2.notifications ≠ [] := by
  refine ⟨by decide, ?_⟩
  have h := ((notification_rules envAcmeSlack sigAcme "S1" true rfl rfl (by decide)).2.2
    wBest (by decide)).1
  intro hc
  exact absurd (h.1 hc) (by decide)

/-- C10: in every result `match_signal` returns — no-text, no-names,
no-candidates, success, and the fatal dict alike — the
`associations_created` count equals the number of `company_matches`
entries whose `association_created` flag is true; it is zero whenever an
error field is present and never exceeds `total_matches`. -/
theorem associations_created_consistent (env : Env) (sig : SignalRec)
    (signal_id : String) (notify_slack : Bool) :
    ((match_signal env sig signal_id notify_slack).1.associations_created =
      ((match_signal env sig signal_id notify_slack).1.company_matches.filter
        (fun c => c.association_created)).length) ∧
    ((match_signal env sig signal_id notify_slack).1.error ≠ none →
      (match_signal env sig signal_id notify_slack).1.associations_created = 0) ∧
    ((match_signal env sig signal_id notify_slack).1.associations_created ≤
      (match_signal env sig signal_id notify_slack).1.total_matches) ∧
    (∀ sid msg : String,
      (fatal_result sid msg).associations_created =
        ((fatal_result sid msg).company_matches.filter
          (fun c => c.association_created)).length ∧
      (fatal_result sid msg).associations_created = 0) := by
  have hfatal : ∀ sid msg : String,
      (fatal_result sid msg).associations_created =
        ((fatal_result sid msg).company_matches.filter
          (fun c => c.association_created)).length ∧
      (fatal_result sid msg).associations_created = 0 := fun _ _ => ⟨rfl, rfl⟩
  by_cases hft : fullTextOf sig = ""
  · rw [match_signal_noText env sig signal_id notify_slack hft]
    exact ⟨rfl, fun _ => rfl, Nat.le_refl 0, hfatal⟩
  · by_cases h2 : env.extract (fullTextOf sig) = []
    · rw [match_signal_noNames env sig signal_id notify_slack hft h2]
      exact ⟨rfl, fun _ => rfl, Nat.le_refl 0, hfatal⟩
    · by_cases h3 : collectMatches env (env.extract (fullTextOf sig)) = []
      · rw [match_signal_noCands env sig signal_id notify_slack hft h2 h3]
        exact ⟨rfl, fun _ => rfl, Nat.le_refl 0, hfatal⟩
      · obtain ⟨b, hb⟩ := select_best_match_isSome _ h3
        rw [match_signal_success env sig signal_id notify_slack b hft h2 h3 hb]
        have hflags := collectMatches_flags env (env.extract (fullTextOf sig))
        have hcreated := runLinks_created env signal_id sig.existing_companies
          (collectMatches env (env.extract (fullTextOf sig))) hflags
        refine ⟨?_, ?_, ?_, hfatal⟩
        · show (runLinks env signal_id sig.existing_companies
              (collectMatches env (env.extract (fullTextOf sig)))).created = _
          rw [List.filter_map]
          have hcomp : ((fun c : CompanyMatchOut => c.association_created) ∘
              (fun m : MatchResult =>
                ({ hubspot_id := m.hubspot_id, name := m.name,
                   similarity := m.similarity, stage := m.stage,
                   association_created := m.association_created } : CompanyMatchOut)))
              = (fun m : MatchResult => m.association_created) := rfl
          rw [hcomp, List.length_map]
          exact hcreated
        · intro hc
          exact absurd rfl hc
        · show (runLinks env signal_id sig.existing_companies
              (collectMatches env (env.extract (fullTextOf sig)))).created ≤ _
          rw [hcreated]
          have hlen : (runLinks env signal_id sig.existing_companies
              (collectMatches env (env.extract (fullTextOf sig)))).ms.length =
              (collectMatches env (env.extract (fullTextOf sig))).length := by
            rw [runLinks_ms]
            exact List.length_map _ _
          calc ((runLinks env signal_id sig.existing_companies
                (collectMatches env (env.extract (fullTextOf sig)))).ms.filter
                  (fun m => m.association_created)).length
              ≤ (runLinks env signal_id sig.existing_companies
                  (collectMatches env (env.extract (fullTextOf sig)))).ms.length :=
                List.length_filter_le _ _
            _ = (collectMatches env (env.extract (fullTextOf sig))).length := hlen

theorem associations_created_consistent_witness :
    (match_signal envSample sigEmpty "S1" true).1.error ≠ none ∧
    (match_signal envSample sigEmpty "S1" true).1.associations_created = 0 :=
  ⟨by decide, (associations_created_consistent envSample sigEmpty "S1" true).2.1 (by decide)⟩

end SignalMatcher

